import Mathlib

/-!
Shallow embedding of the page-composition layer of the delta-io website
repository, centred on
`src/components/pages/index/LatestUpdateSection/index.jsx`, together with
the front-matter metadata of the blog articles present in the repository
snapshot. Rendering is modelled as pure functions from configuration
records to lists of render nodes.
-/

namespace DeltaSite

/-- A display record of the page-composition layer: title, thumbnail
image reference and destination link. This is the shape of each object
literal in the `updates` array of `LatestUpdateSection/index.jsx`
(exactly the three fields `title`, `thumbnail`, `url`). -/
structure ContentItem where
  title : String
  thumbnail : String
  url : String
deriving Repr, DecidableEq

/-- A rendered thumbnail card: a navigation link wrapping an image and a
title. -/
structure Card where
  linkTarget : String
  imageSrc : String
  titleText : String
deriving Repr, DecidableEq

/-- Modelled from the spec: the `ImageStrip` component
(`src/components/ImageStrip`) is imported by
`LatestUpdateSection/index.jsx` but its source is not part of the
repository snapshot. Per the spec's contract, the strip renderer maps
each `ContentItem`, in order, to one clickable card linking to the
item's destination URL, with no transformation, filtering or sorting. -/
def ImageStrip (items : List ContentItem) : List Card :=
  items.map (fun it => { linkTarget := it.url, imageSrc := it.thumbnail, titleText := it.title })

/-- The `CenteredImageStrip` wrapper from `index.jsx` is `styled(ImageStrip)` with a
`text-align: center` rule: purely a CSS wrapper, so the rendered card
list is that of `ImageStrip` itself. -/
def CenteredImageStrip (items : List ContentItem) : List Card :=
  ImageStrip items

/-- A theme value as consumed by the background selector prop
`background=\x7b(theme) => theme.light.bg\x7d` in `index.jsx`: it carries (at
least) light and dark background colour tokens. -/
structure Theme where
  lightBg : String
  darkBg : String
deriving Repr, DecidableEq

/-- Modelled from the spec: the `Section` component
(`src/components/Section`) is imported by `LatestUpdateSection/index.jsx`
but its source is not part of the repository snapshot. Per the spec's
contract, it accepts a background selector (a function of a theme
value), a title string, a title-size token, a boolean for centering the
header and a padding-size token, and renders a heading followed by its
children. The output record keeps each prop's contribution explicit. -/
structure SectionOutput where
  backgroundColor : String
  headingText : String
  headingSize : String
  centeredHeader : Bool
  padding : String
  children : List Card
deriving Repr, DecidableEq

/-- Modelled from the spec: rendering of the `Section` component (see
`SectionOutput`). -/
def SectionRender (theme : Theme) (background : Theme → String) (title : String)
    (titleSize : String) (centeredHeader : Bool) (padding : String)
    (children : List Card) : SectionOutput :=
  { backgroundColor := background theme
    headingText := title
    headingSize := titleSize
    centeredHeader := centeredHeader
    padding := padding
    children := children }

/-- A node of the flattened render tree of a section: the heading, then
one node per card. -/
inductive RenderNode where
  | heading (text : String) : RenderNode
  | card (c : Card) : RenderNode
deriving Repr, DecidableEq

/-- Whether a render node is a heading. -/
def RenderNode.isHeading : RenderNode → Bool
  | .heading _ => true
  | .card _ => false

/-- The card carried by a render node, if any. -/
def RenderNode.cardOf : RenderNode → Option Card
  | .heading _ => none
  | .card c => some c

/-- Flatten a rendered section to its node sequence: the heading first,
followed by the children cards in order. -/
def SectionOutput.flatten (s : SectionOutput) : List RenderNode :=
  RenderNode.heading s.headingText :: s.children.map RenderNode.card

/-- The `updates` array literally present in
`LatestUpdateSection/index.jsx` (lines 11–38): five records, in
declaration order. Thumbnail fields hold the imported image file names. -/
def updates : List ContentItem :=
  [ { title := "Delta Lake Schema Enforcement",
      thumbnail := "schemaEnforcement.png",
      url := "/blog/2022-11-16-delta-lake-schema-enforcement/" },
    { title := "Why PySpark append and overwrite write operations are safer in Delta Lake than Parquet tables",
      thumbnail := "pysparkSaveModes.png",
      url := "/blog/2022-11-01-pyspark-save-mode-append-overwrite-error/" },
    { title := "How to Create Delta Lake tables",
      thumbnail := "create-delta-lake-table.png",
      url := "/blog/2022-10-25-create-delta-lake-tables/" },
    { title := "How to Version Your Data with pandas and Delta Lake",
      thumbnail := "versionPandasDataset.png",
      url := "/blog/2022-10-15-version-pandas-dataset/" },
    { title := "Sharing a Delta Table’s Change Data Feed with Delta Sharing 0.5.0",
      thumbnail := "delta-sharing-cdf.png",
      url := "/blog/2022-10-10-delta-sharing-0-5-0-released/" } ]

/-- The `LatestUpdateSection` component of `index.jsx` (lines 44–56): a
prop-less component rendering a `Section` titled "The Latest" with the
light-theme background, `h5` title size, centered header, `xxxl`
padding, containing the centered image strip over `updates`. The theme
is ambient context supplied by the styling framework, not a caller
prop. -/
def LatestUpdateSection (theme : Theme) : SectionOutput :=
  SectionRender theme (fun t => t.lightBg) "The Latest" "h5" true "xxxl"
    (CenteredImageStrip updates)

/-- The fixed front-matter schema of a blog article: title, description,
thumbnail path, author and date, as in the metadata block heading each
`index.mdx` document. -/
structure FrontMatter where
  title : String
  description : String
  thumbnail : String
  author : String
  date : String
deriving Repr, DecidableEq

/-- Front-matter of `src/blog/2023-06-03-delta-lake-z-order/index.mdx`
(lines 1–7). -/
def zOrderArticle : FrontMatter :=
  { title := "Delta Lake Z Order"
    description := "This post explains how to use Delta Lake Z Order to make your queries run faster"
    thumbnail := "./thumbnail.png"
    author := "Matthew Powers"
    date := "2023-06-03" }

/-- Front-matter of `src/blog/data-skipping/index.mdx` (lines 1–7). -/
def dataSkippingArticle : FrontMatter :=
  { title := "Data Skipping with Delta Lake"
    description := "Learn how to use Delta Lake for advanced data skipping"
    thumbnail := "./thumbnail.png"
    author := "Avril Aysha"
    date := "2025-01-03" }

/-- Front-matter of the Apache Sedona article (an `index.mdx` whose path
is not preserved in the snapshot), lines 1–7. -/
def sedonaArticle : FrontMatter :=
  { title := "Working with Apache Sedona"
    description := "Learn how to use Apache Sedona with Delta Lake"
    thumbnail := "./thumbnail.png"
    author := "Avril Aysha"
    date := "2025-01-19" }

/-- The corpus of article documents present in the repository snapshot. -/
def articles : List FrontMatter :=
  [zOrderArticle, dataSkippingArticle, sedonaArticle]

/-- Whether a string is non-empty (by its character data). -/
def strNonEmpty (s : String) : Bool :=
  !s.data.isEmpty

/-- Whether string `s` begins with the string `p` (by character data). -/
def startsWithStr (s p : String) : Bool :=
  p.data.isPrefixOf s.data

/-- Whether string `s` finishes with the string `p` (by character data). -/
def endsWithStr (s p : String) : Bool :=
  p.data.isSuffixOf s.data

/-- Split a character list at every occurrence of the separator `c`. -/
def splitOnChar (c : Char) : List Char → List (List Char)
  | [] => [[]]
  | x :: xs =>
    let r := splitOnChar c xs
    if x == c then [] :: r
    else
      match r with
      | [] => [[x]]
      | h :: t => (x :: h) :: t

/-- Read a non-empty all-digit character list as a decimal number. -/
def digitsToNat? (l : List Char) : Option Nat :=
  if !l.isEmpty && l.all Char.isDigit then
    some (l.foldl (fun acc c => acc * 10 + (c.toNat - 48)) 0)
  else none

/-- Whether a year is a leap year of the Gregorian calendar. -/
def isLeapYear (y : Nat) : Bool :=
  (y % 4 == 0 && y % 100 != 0) || y % 400 == 0

/-- Number of days of month `m` of year `y` in the Gregorian calendar. -/
def daysInMonth (y m : Nat) : Nat :=
  if m == 2 then (if isLeapYear y then 29 else 28)
  else if m == 4 || m == 6 || m == 9 || m == 11 then 30
  else 31

/-- Parse an ISO `YYYY-MM-DD` string to a calendar date, returning
`none` unless the three components are numeric with the right widths
and designate a valid Gregorian calendar day. -/
def parseDate (s : String) : Option (Nat × Nat × Nat) :=
  match splitOnChar '-' s.data with
  | [ys, ms, ds] =>
    match digitsToNat? ys, digitsToNat? ms, digitsToNat? ds with
    | some y, some m, some d =>
      if ys.length = 4 ∧ ms.length = 2 ∧ ds.length = 2
          ∧ 1 ≤ m ∧ m ≤ 12 ∧ 1 ≤ d ∧ d ≤ daysInMonth y m then
        some (y, m, d)
      else none
    | _, _, _ => none
  | _ => none

/-- The ten-character date slug embedded in a blog URL of the shape
`/blog/YYYY-MM-DD-.../`: the characters after the `/blog/` path head. -/
def urlSlugDate (u : String) : String :=
  String.mk ((u.data.drop 6).take 10)

/-- Numeric sort key of the date slug embedded in a blog URL: `0` when
the slug is not a valid date. -/
def slugDateKey (u : String) : Nat :=
  match parseDate (urlSlugDate u) with
  | some (y, m, d) => y * 10000 + m * 100 + d
  | none => 0

/-- Claim C1: for every list of `ContentItem` records, the strip
renderer produces exactly as many cards as there are items, and at
every position the card is exactly the card of the input item at the
same position — one card per item, in input order, with no
transformation, filtering or sorting. -/
theorem imageStrip_one_card_per_item_in_order (items : List ContentItem) :
    (ImageStrip items).length = items.length ∧
    ∀ i : Nat, (ImageStrip items)[i]? = (items[i]?).map
      (fun it => { linkTarget := it.url, imageSrc := it.thumbnail, titleText := it.title }) := by
  refine ⟨by simp [ImageStrip], fun i => ?_⟩
  simp [ImageStrip]

/-- Claim C2: at every position of the rendered strip, the card's link
target is exactly the corresponding input item's `url` field — the
renderer applies no transformation to destination URLs. -/
theorem imageStrip_link_target_exact (items : List ContentItem) :
    ∀ i : Nat, ((ImageStrip items)[i]?).map Card.linkTarget = (items[i]?).map ContentItem.url := by
  intro i
  simp only [ImageStrip, List.getElem?_map, Option.map_map]
  cases items[i]? <;> rfl

/-- Claim C3: for every title and every children list (the empty list
included), the flattened section output contains exactly one heading
node, that heading carries the title text and comes first, and the
cards that follow are exactly the supplied children, in order. -/
theorem section_heading_once_children_all (theme : Theme) (background : Theme → String)
    (title : String) (titleSize : String) (centeredHeader : Bool) (padding : String)
    (children : List Card) :
    ((SectionRender theme background title titleSize centeredHeader padding children).flatten.countP
        RenderNode.isHeading) = 1 ∧
    (SectionRender theme background title titleSize centeredHeader padding children).flatten.head? =
      some (RenderNode.heading title) ∧
    ((SectionRender theme background title titleSize centeredHeader padding children).flatten.filterMap
        RenderNode.cardOf) = children := by
  refine ⟨?_, ?_, ?_⟩
  · simp [SectionRender, SectionOutput.flatten, RenderNode.isHeading, List.countP_cons,
      List.countP_map, Function.comp_def, List.countP_eq_zero]
  · simp [SectionRender, SectionOutput.flatten]
  · simp [SectionRender, SectionOutput.flatten, RenderNode.cardOf, List.filterMap_map,
      Function.comp_def]

/-- Claim C4: rendering the page configuration literally present in the
repository produces exactly five cards whose (title, link target) pairs
match the five configured records, in declaration order. -/
theorem latestUpdateSection_five_cards (theme : Theme) :
    (LatestUpdateSection theme).children.length = 5 ∧
    (LatestUpdateSection theme).children.map (fun c => (c.titleText, c.linkTarget)) =
      [ ("Delta Lake Schema Enforcement",
         "/blog/2022-11-16-delta-lake-schema-enforcement/"),
        ("Why PySpark append and overwrite write operations are safer in Delta Lake than Parquet tables",
         "/blog/2022-11-01-pyspark-save-mode-append-overwrite-error/"),
        ("How to Create Delta Lake tables",
         "/blog/2022-10-25-create-delta-lake-tables/"),
        ("How to Version Your Data with pandas and Delta Lake",
         "/blog/2022-10-15-version-pandas-dataset/"),
        ("Sharing a Delta Table’s Change Data Feed with Delta Sharing 0.5.0",
         "/blog/2022-10-10-delta-sharing-0-5-0-released/") ] :=
  ⟨rfl, rfl⟩

/-- Claim C5: rendering is deterministic — evaluating the embedded
render functions twice on the same configuration yields identical
outputs, for the page component, the section renderer and the strip
renderer alike (each is a pure function of its configuration). -/
theorem rendering_deterministic :
    (∀ theme : Theme, LatestUpdateSection theme = LatestUpdateSection theme) ∧
    (∀ (theme : Theme) (background : Theme → String) (title titleSize : String)
        (centeredHeader : Bool) (padding : String) (children : List Card),
      SectionRender theme background title titleSize centeredHeader padding children =
        SectionRender theme background title titleSize centeredHeader padding children) ∧
    (∀ items : List ContentItem, ImageStrip items = ImageStrip items) :=
  ⟨fun _ => rfl, fun _ _ _ _ _ _ _ => rfl, fun _ => rfl⟩

/-- Claim C6: every record of the `updates` configuration has a
non-empty title and a non-empty destination URL. -/
theorem updates_items_nonempty :
    updates.all (fun it => strNonEmpty it.title && strNonEmpty it.url) = true := by
  decide

/-- Claim C7: every article document in the snapshot's corpus carries
the full front-matter schema with non-empty title, description,
thumbnail path and author, and its date field parses to a valid
Gregorian calendar date. -/
theorem articles_frontmatter_valid :
    articles.all (fun a => strNonEmpty a.title && strNonEmpty a.description
      && strNonEmpty a.thumbnail && strNonEmpty a.author && (parseDate a.date).isSome) = true := by
  decide

/-- Claim C8: every record of the `updates` configuration carries
exactly the three fields of `ContentItem` (title, thumbnail, url), and
every `url` value is a site-relative blog path: it begins with
`/blog/` and ends with `/`. -/
theorem updates_urls_blog_relative :
    updates.all (fun it => it == ContentItem.mk it.title it.thumbnail it.url
      && startsWithStr it.url "/blog/" && endsWithStr it.url "/") = true := by
  decide

/-- Claim C9: the `updates` configuration is ordered newest-first: the
date slugs embedded in the five URLs are exactly 2022-11-16,
2022-11-01, 2022-10-25, 2022-10-15, 2022-10-10, and consecutive
records have strictly decreasing slug dates. -/
theorem updates_newest_first :
    updates.map (fun it => urlSlugDate it.url) =
      ["2022-11-16", "2022-11-01", "2022-10-25", "2022-10-15", "2022-10-10"] ∧
    List.Chain' (fun a b => slugDateKey b.url < slugDateKey a.url) updates := by
  refine ⟨by decide, ?_⟩
  simp only [updates, List.chain'_cons, List.chain'_singleton, and_true]
  refine ⟨?_, ?_, ?_, ?_⟩ <;> decide

/-- Claim C10: `LatestUpdateSection` takes no caller props; its output
is the constant section record with title "The Latest", title size
`h5`, centered header, `xxxl` padding, the ambient theme's light
background, and exactly the strip of cards built from the fixed
`updates` array. -/
theorem latestUpdateSection_constant (theme : Theme) :
    LatestUpdateSection theme =
      { backgroundColor := theme.lightBg
        headingText := "The Latest"
        headingSize := "h5"
        centeredHeader := true
        padding := "xxxl"
        children := ImageStrip updates } :=
  rfl

end DeltaSite

